import Mathlib

/-!
Verification of the dataset / metadata assertion helpers in
`tensorflow_transform/beam/tft_unit.py` (class `TransformTestCase`).

The Python module is a thin test-support layer: it compares datasets
(sequences of string-keyed records whose values are strings, lists of
strings, numbers, lists of numbers, or pairs of those), resolves deferred
metadata, and orchestrates an analyze/transform pipeline run.  We embed the
record model, the comparison routines, and the orchestration control flow,
treating the external pipeline operations and the numeric-array primitives
(`assertAllEqual`, `assertAllClose`) as explicitly modelled components.

Python exceptions are embedded as `Except PyErr`, where `PyErr` records the
exception class (assertion error, type error, key error, index error) and
its message.  Python truthiness of the relevant objects (strings, lists,
dicts, optional metadata) is modelled explicitly at each use site.
-/

set_option autoImplicit false

namespace TftUnit

/-- The Python exception classes that the module can raise or catch. -/
inductive ErrKind where
  | assertionError
  | typeError
  | keyError
  | indexError
deriving DecidableEq, Repr

/-- A raised Python exception: its class and its (single) message argument. -/
structure PyErr where
  kind : ErrKind
  msg : String
deriving DecidableEq, Repr

/-- A scalar fixture value: a string or a number (floats are modelled as
rationals so that closeness is decidable). -/
inductive Prim where
  | str (s : String)
  | num (x : Rat)
deriving DecidableEq, Repr

/-- A leaf fixture value: a scalar or a Python list of scalars. -/
inductive Leaf where
  | prim (p : Prim)
  | lst (l : List Prim)
deriving DecidableEq, Repr

/-- A field value of a record: a leaf, or a 2-tuple of leaves (used for
(values, indices) encodings of sparse features). -/
inductive Value where
  | leaf (v : Leaf)
  | pair (fst snd : Leaf)
deriving DecidableEq, Repr

def Prim.isStr : Prim → Bool
  | .str _ => true
  | .num _ => false

def Prim.isNum : Prim → Bool
  | .str _ => false
  | .num _ => true

def Prim.num? : Prim → Option Rat
  | .str _ => none
  | .num x => some x

/-- Python subscription `v[k]` on a field value: tuples yield their
components, strings yield one-character strings, lists yield their
elements, and numbers raise a `TypeError`. -/
def pyIndex (v : Value) (k : Nat) : Except PyErr Leaf :=
  match v with
  | .pair a b =>
      if k = 0 then .ok a
      else if k = 1 then .ok b
      else .error ⟨.indexError, "tuple index out of range"⟩
  | .leaf (.prim (.str s)) =>
      match s.data.get? k with
      | some c => .ok (.prim (.str (String.singleton c)))
      | none => .error ⟨.indexError, "string index out of range"⟩
  | .leaf (.prim (.num _)) =>
      .error ⟨.typeError, "object is not subscriptable"⟩
  | .leaf (.lst l) =>
      match l.get? k with
      | some p => .ok (.prim p)
      | none => .error ⟨.indexError, "list index out of range"⟩

/-- A value coerced to a numeric array (model of `np.array` conversion
inside `assertAllClose`): a scalar, or a vector of rationals.  Strings and
nested tuples do not convert and raise a `TypeError`. -/
inductive NumArr where
  | scalar (x : Rat)
  | vec (xs : List Rat)
deriving DecidableEq, Repr

/-- `np.array` conversion of a scalar list to a float vector: succeeds only
when every element is numeric. -/
def primsToNums : List Prim → Option (List Rat)
  | [] => some []
  | .num x :: rest => (primsToNums rest).map fun xs => x :: xs
  | .str _ :: _ => none

def toNumArr : Value → Except PyErr NumArr
  | .leaf (.prim (.num x)) => .ok (.scalar x)
  | .leaf (.prim (.str _)) =>
      .error ⟨.typeError, "cannot perform numeric comparison on string data"⟩
  | .leaf (.lst l) =>
      match primsToNums l with
      | some xs => .ok (.vec xs)
      | none =>
          .error ⟨.typeError, "cannot perform numeric comparison on string data"⟩
  | .pair (.prim (.num x)) (.prim (.num y)) => .ok (.vec [x, y])
  | .pair _ _ =>
      .error ⟨.typeError, "cannot perform numeric comparison on non-scalar tuple"⟩

/-- A value coerced to an array for exact comparison (model of `np.array`
conversion inside `assertAllEqual`): a tuple of two scalars becomes a
2-element array; nested tuples give no comparable array. -/
def valueAsArrayLeaf : Value → Option Leaf
  | .leaf l => some l
  | .pair (.prim p) (.prim q) => some (.lst [p, q])
  | .pair _ _ => none

/-- Relative tolerance of the modelled `assertAllClose`. -/
def rtol : Rat := 1 / 1000000

/-- Absolute tolerance of the modelled `assertAllClose`. -/
def atol : Rat := 1 / 1000000

/-- Numeric closeness of two scalars, `np.allclose` style. -/
def ratClose (x y : Rat) : Bool := decide (|x - y| ≤ atol + rtol * |y|)

def sameShape : NumArr → NumArr → Bool
  | .scalar _, .scalar _ => true
  | .vec xs, .vec ys => xs.length == ys.length
  | _, _ => false

def allCloseVals : NumArr → NumArr → Bool
  | .scalar x, .scalar y => ratClose x y
  | .vec xs, .vec ys => (xs.zip ys).all fun p => ratClose p.1 p.2
  | _, _ => false

/-- Model of `TensorFlowTestCase.assertAllClose` (rtol = atol = 1e-6):
convert both values to numeric arrays (`TypeError` on string data), check
shapes, then elementwise closeness. -/
def assertAllClose (a b : Value) : Except PyErr Unit := do
  let na ← toNumArr a
  let nb ← toNumArr b
  if sameShape na nb then
    if allCloseVals na nb then .ok ()
    else .error ⟨.assertionError,
      "values are not close: " ++ reprStr na ++ " vs " ++ reprStr nb⟩
  else .error ⟨.assertionError,
    "shape mismatch: " ++ reprStr na ++ " vs " ++ reprStr nb⟩

/-- Model of `TensorFlowTestCase.assertAllEqual`: exact elementwise array
equality (a 2-tuple of scalars coerces to a 2-element array). -/
def assertAllEqual (a b : Value) : Except PyErr Unit :=
  match valueAsArrayLeaf a, valueAsArrayLeaf b with
  | some la, some lb =>
      if la = lb then .ok ()
      else .error ⟨.assertionError,
        "arrays are not equal: " ++ reprStr la ++ " vs " ++ reprStr lb⟩
  | _, _ => .error ⟨.assertionError, "arrays are not equal"⟩

/-- The dispatch condition of `_assertValuesCloseOrEqual` (lines 61-63):
`isinstance(a_value, str) or (isinstance(a_value, list) and a_value and
isinstance(a_value[0], str))`. -/
def usesExactEquality : Value → Bool
  | .leaf (.prim (.str _)) => true
  | .leaf (.lst (p :: _)) => p.isStr
  | _ => false

/-- The `try` body of `_assertValuesCloseOrEqual` (lines 61-66). -/
def compareBody (a_value b_value : Value) : Except PyErr Unit :=
  if usesExactEquality a_value then assertAllEqual a_value b_value
  else assertAllClose a_value b_value

/-- The annotation performed by the `except` clause (lines 68-69):
appending the context to the first argument of `e.args`, applied only when
`msg` is truthy (present and non-empty). -/
def pyAnnotate (e : PyErr) (msg : Option String) : PyErr :=
  match msg with
  | some m => if m = "" then e else ⟨e.kind, e.msg ++ " : " ++ m⟩
  | none => e

/-- The exception classes caught by `except (AssertionError, TypeError)`. -/
def caughtKind (k : ErrKind) : Bool :=
  match k with
  | .assertionError => true
  | .typeError => true
  | _ => false

/-- `TransformTestCase._assertValuesCloseOrEqual` (lines 59-70): run the
dispatching comparison; on an `AssertionError` or `TypeError`, re-raise the
same exception with the context message appended to its first argument. -/
def assertValuesCloseOrEqual (a_value b_value : Value) (msg : Option String) :
    Except PyErr Unit :=
  match compareBody a_value b_value with
  | .ok () => .ok ()
  | .error e => if caughtKind e.kind then .error (pyAnnotate e msg) else .error e

/-- The `try/except` wrapper of `_assertValuesCloseOrEqual` around an
arbitrary comparison result. -/
def wrapAnnotate (r : Except PyErr Unit) (msg : Option String) :
    Except PyErr Unit :=
  match r with
  | .ok () => .ok ()
  | .error e => if caughtKind e.kind then .error (pyAnnotate e msg) else .error e

/-- A record: a Python dict from field names to values, embedded as an
association list (Python dicts have no duplicate keys; well-formedness
below records that). -/
abbrev Row := List (String × Value)

/-- A dataset: an ordered sequence of records. -/
abbrev Dataset := List Row

def rowKeys (r : Row) : List String := r.map Prod.fst

/-- Python dict subscription `r[key]`: the binding for `key`, or a
`KeyError`. -/
def lookupKey (r : Row) (key : String) : Except PyErr Value :=
  match r.find? (fun kv => kv.1 == key) with
  | some kv => .ok kv.2
  | none => .error ⟨.keyError, key⟩

/-- Multiset equality of key lists, the semantics of
`assertItemsEqual` (element counts ignored order). -/
def msetEq : List String → List String → Bool
  | [], ys => ys.isEmpty
  | x :: xs, ys => ys.contains x && msetEq xs (ys.erase x)

def itemsDifferMsg (xs ys : List String) : String :=
  "element counts were not equal: " ++ reprStr xs ++ " vs " ++ reprStr ys

/-- Model of `unittest` `assertItemsEqual(xs, ys, msg)` with
`longMessage = True`: multiset comparison, standard message followed by the
context message. -/
def assertItemsEqual (xs ys : List String) (msg : String) : Except PyErr Unit :=
  if msetEq xs ys then .ok ()
  else .error ⟨.assertionError, itemsDifferMsg xs ys ++ " : " ++ msg⟩

/-- Model of `unittest` `assertEqual` on integers with `longMessage = True`. -/
def assertEqualNat (x y : Nat) (msg : String) : Except PyErr Unit :=
  if x = y then .ok ()
  else .error ⟨.assertionError, toString x ++ " != " ++ toString y ++ " : " ++ msg⟩

/-- The context message `Row %d, key %s` formatted with (i, key) (line 52). -/
def rowKeyMsg (i : Nat) (key : String) : String :=
  "Row " ++ toString i ++ ", key " ++ key

/-- The per-field comparison of `assertDataCloseOrEqual` (lines 50-57):
tuples are compared component-wise (subscripting the actual value, whatever
it is), other values directly. -/
def compareKV (i : Nat) (key : String) (a_value b_value : Value) :
    Except PyErr Unit :=
  let msg := rowKeyMsg i key
  match a_value with
  | .pair a0 a1 => do
      let b0 ← pyIndex b_value 0
      assertValuesCloseOrEqual (.leaf a0) (.leaf b0) (some msg)
      let b1 ← pyIndex b_value 1
      assertValuesCloseOrEqual (.leaf a1) (.leaf b1) (some msg)
  | .leaf l => assertValuesCloseOrEqual (.leaf l) b_value (some msg)

/-- The loop `for key in a_row.keys()` of `assertDataCloseOrEqual`
(lines 49-57). -/
def compareFields (i : Nat) (b_row : Row) : List (String × Value) →
    Except PyErr Unit
  | [] => .ok ()
  | (key, a_value) :: rest => do
      let b_value ← lookupKey b_row key
      compareKV i key a_value b_value
      compareFields i b_row rest

/-- One iteration of the row loop (lines 47-57): key-set check, then the
per-field comparisons. -/
def compareRow (i : Nat) (a_row b_row : Row) : Except PyErr Unit := do
  assertItemsEqual (rowKeys a_row) (rowKeys b_row) ("Row " ++ toString i)
  compareFields i b_row a_row

/-- The row loop `for i, (a_row, b_row) in enumerate(zip(a_data, b_data))`
starting at index `i`. -/
def compareRowsFrom (i : Nat) : Dataset → Dataset → Except PyErr Unit
  | [], _ => .ok ()
  | _, [] => .ok ()
  | a_row :: as_, b_row :: bs_ => do
      compareRow i a_row b_row
      compareRowsFrom (i + 1) as_ bs_

/-- The message `len(%r) != len(%r)` formatted with the datasets (line 46). -/
def lenMsg (a_data b_data : Dataset) : String :=
  "len(" ++ reprStr a_data ++ ") != len(" ++ reprStr b_data ++ ")"

/-- `TransformTestCase.assertDataCloseOrEqual` (lines 33-57). -/
def assertDataCloseOrEqual (a_data b_data : Dataset) : Except PyErr Unit := do
  assertEqualNat a_data.length b_data.length (lenMsg a_data b_data)
  compareRowsFrom 0 a_data b_data

/-! ### Success predicates for the comparison routines

Boolean predicates characterising when the comparison routines succeed,
stated without the exception machinery. -/

/-- Success of the exact-equality comparison. -/
def exactMatches (a b : Value) : Bool :=
  match valueAsArrayLeaf a, valueAsArrayLeaf b with
  | some la, some lb => la == lb
  | _, _ => false

/-- Success of the closeness comparison. -/
def closeMatches (a b : Value) : Bool :=
  match toNumArr a, toNumArr b with
  | .ok na, .ok nb => sameShape na nb && allCloseVals na nb
  | _, _ => false

/-- Success of a single leaf comparison (`_assertValuesCloseOrEqual`). -/
def leafMatches (a b : Value) : Bool :=
  if usesExactEquality a then exactMatches a b else closeMatches a b

/-- Success of a full field-value comparison, tuples included. -/
def valueMatches (a b : Value) : Bool :=
  match a with
  | .pair a0 a1 =>
      (match pyIndex b 0 with
       | .ok b0 => leafMatches (.leaf a0) (.leaf b0)
       | .error _ => false) &&
      (match pyIndex b 1 with
       | .ok b1 => leafMatches (.leaf a1) (.leaf b1)
       | .error _ => false)
  | .leaf l => leafMatches (.leaf l) b

/-- Success of a row comparison: equal key multisets, and every field of
the expected row matches the corresponding field of the actual row. -/
def rowMatches (a b : Row) : Bool :=
  msetEq (rowKeys a) (rowKeys b) &&
  a.all fun kv =>
    match lookupKey b kv.1 with
    | .ok bv => valueMatches kv.2 bv
    | .error _ => false

/-- Success of a dataset comparison. -/
def dataMatches (a b : Dataset) : Bool :=
  a.length == b.length && (a.zip b).all fun p => rowMatches p.1 p.2

/-! ### Well-formed fixture data

The docstring of `assertDataCloseOrEqual` constrains values to strings,
lists of strings, numeric types, or pairs of those (so lists are
homogeneous), and rows are Python dicts (no duplicate keys). -/

def wfLeaf : Leaf → Bool
  | .prim _ => true
  | .lst l => l.all Prim.isStr || l.all Prim.isNum

def wfValue : Value → Bool
  | .leaf l => wfLeaf l
  | .pair a b => wfLeaf a && wfLeaf b

def nodupKeys : List String → Bool
  | [] => true
  | x :: xs => !xs.contains x && nodupKeys xs

def wfRow (r : Row) : Bool :=
  nodupKeys (rowKeys r) && r.all fun kv => wfValue kv.2

def wfDataset (d : Dataset) : Bool := d.all wfRow

/-! ### The dataset-equality reading of the specification

A second definition, written from the specification sentence "succeeds iff
the values of every field are equal (exactly for strings, within tolerance for
numerics; 2-element pair values compared element-wise)", to be compared
with the code-derived predicate `dataMatches`: values of different kinds
(a pair versus a string, say) are never "equal" under this reading. -/

def specPrimEq : Prim → Prim → Bool
  | .str s, .str t => s == t
  | .num x, .num y => ratClose x y
  | _, _ => false

def specLeafEq : Leaf → Leaf → Bool
  | .prim p, .prim q => specPrimEq p q
  | .lst xs, .lst ys =>
      xs.length == ys.length && (xs.zip ys).all fun p => specPrimEq p.1 p.2
  | _, _ => false

/-- Equality of field values as the specification claim words it. -/
def specValueEq : Value → Value → Bool
  | .leaf a, .leaf b => specLeafEq a b
  | .pair a0 a1, .pair b0 b1 => specLeafEq a0 b0 && specLeafEq a1 b1
  | _, _ => false

/-! ### Metadata model

`DatasetMetadata` is external to the module; the module reads its
`schema.column_schemas` dict (feature name to column schema), compares it
for equality, and calls `substitute_futures({})` on it.  We model a column
schema by its core fields (`representation`, `domain.dtype`) plus an
opaque non-core remainder, and metadata by its schema plus an opaque
non-core remainder, the list of futures still unresolved in it, and its
Python truthiness. -/

structure ColumnSchema where
  representation : String
  domainDtype : String
  extraInfo : String
deriving DecidableEq, Repr

structure Schema where
  column_schemas : List (String × ColumnSchema)
deriving DecidableEq, Repr

structure Metadata where
  schema : Schema
  otherFields : String
  unresolvedFutures : List String
  pyTruthy : Bool
deriving DecidableEq, Repr

/-- `substitute_futures({})`: the futures left unresolved in the metadata. -/
def substituteFuturesEmpty (m : Metadata) : List String := m.unresolvedFutures

def schemaKeys (m : Metadata) : List String :=
  m.schema.column_schemas.map Prod.fst

/-- Python dict lookup on `column_schemas` as an `Option`. -/
def dictLookup (l : List (String × ColumnSchema)) (k : String) :
    Option ColumnSchema :=
  (l.find? (fun kv => kv.1 == k)).map Prod.snd

/-- Python `==` on the `column_schemas` dicts: same keys, equal values
(order-insensitive). -/
def dictEq (a b : List (String × ColumnSchema)) : Bool :=
  (a.all fun kv => dictLookup b kv.1 == some kv.2) &&
  (b.all fun kv => dictLookup a kv.1 == some kv.2)

/-- Python `==` on `DatasetMetadata` objects: schemas compared as dicts,
all remaining fields compared directly. -/
def metadataEq (a b : Metadata) : Bool :=
  dictEq a.schema.column_schemas b.schema.column_schemas &&
  a.otherFields == b.otherFields &&
  a.unresolvedFutures == b.unresolvedFutures &&
  a.pyTruthy == b.pyTruthy

/-- The transformed-metadata wrapper produced by a pipeline run: it exposes
`pcollections` (possibly empty) and a directly readable
`dataset_metadata`. -/
structure DeferredMetadata where
  pcollections : List Nat
  dataset_metadata : Metadata
deriving DecidableEq, Repr

/-- Model of `unittest` `assertEqual(unresolved_futures, [])` (line 86). -/
def assertNoFutures (xs : List String) : Except PyErr Unit :=
  if xs = [] then .ok ()
  else .error ⟨.assertionError, reprStr xs ++ " != []"⟩

/-- `TransformTestCase._resolveDeferredMetadata` (lines 72-87),
parameterised by the external `ResolveBeamFutures` transform (whose result
is subscripted at 0, an `IndexError` when it is empty). -/
def resolveDeferredMetadata (resolveFutures : DeferredMetadata → List Metadata)
    (transformed_metadata : DeferredMetadata) : Except PyErr Metadata := do
  let m ←
    if transformed_metadata.pcollections.isEmpty then
      pure transformed_metadata.dataset_metadata
    else
      match resolveFutures transformed_metadata with
      | [] => .error ⟨.indexError, "list index out of range"⟩
      | m :: _ => pure m
  assertNoFutures (substituteFuturesEmpty m)
  pure m

/-! ### Metadata checks of `assertAnalyzeAndTransformResults` -/

/-- Model of `assertSameElements` (set semantics, order and duplicates
ignored). -/
def assertSameElements (xs ys : List String) : Except PyErr Unit :=
  if (xs.all fun x => ys.contains x) && (ys.all fun y => xs.contains y) then
    .ok ()
  else .error ⟨.assertionError,
    "element sets differ: " ++ reprStr xs ++ " vs " ++ reprStr ys⟩

/-- Model of `unittest` `assertEqual` on strings with `longMessage = True`
and an optional context message. -/
def assertEqualStr (x y : String) (msg : Option String) : Except PyErr Unit :=
  if x = y then .ok ()
  else .error ⟨.assertionError,
    pyAnnotate ⟨.assertionError, reprStr x ++ " != " ++ reprStr y⟩ msg |>.msg⟩

/-- The loop of the core-metadata check (lines 172-177): iterate over the
transformed column schemas, look each key up in the expected schemas, and
compare representation and domain dtype. -/
def checkCoreColumns (expected : List (String × ColumnSchema)) :
    List (String × ColumnSchema) → Except PyErr Unit
  | [] => .ok ()
  | (k, v) :: rest => do
      let expected_schema ←
        match dictLookup expected k with
        | some cs => pure cs
        | none => .error ⟨.keyError, k⟩
      assertEqualStr expected_schema.representation v.representation
        (some ("representation does not match for feature " ++ reprStr k))
      assertEqualStr expected_schema.domainDtype v.domainDtype
        (some ("dtype does not match for feature " ++ reprStr k))
      checkCoreColumns expected rest

/-- The core-metadata comparison (lines 169-177): same feature-name sets,
then per-feature representation and dtype. -/
def checkCoreMetadata (transformed expected : Metadata) : Except PyErr Unit := do
  assertSameElements (schemaKeys transformed) (schemaKeys expected)
  checkCoreColumns expected.schema.column_schemas
    transformed.schema.column_schemas

/-- The full-metadata comparison (lines 182-184): `assertEqual` on the
`column_schemas` dicts, then on the entire metadata objects. -/
def checkFullMetadata (transformed expected : Metadata) : Except PyErr Unit := do
  if dictEq expected.schema.column_schemas transformed.schema.column_schemas then
    pure ()
  else .error ⟨.assertionError, "column_schemas differ"⟩
  if metadataEq expected transformed then pure ()
  else .error ⟨.assertionError, "metadata differs"⟩

/-- Success predicate of the core-metadata check: equal feature-name sets
and, per transformed feature, equal representation and domain dtype in the
expected schema.  Non-core fields (`extraInfo`, `otherFields`, futures,
truthiness) do not occur. -/
def coreMetadataMatches (transformed expected : Metadata) : Bool :=
  ((schemaKeys transformed).all fun k => (schemaKeys expected).contains k) &&
  ((schemaKeys expected).all fun k => (schemaKeys transformed).contains k) &&
  (transformed.schema.column_schemas.all fun kv =>
    match dictLookup expected.schema.column_schemas kv.1 with
    | some cs =>
        cs.representation == kv.2.representation &&
        cs.domainDtype == kv.2.domainDtype
    | none => false)

/-- The core content of a metadata object: per feature, its name,
representation and domain dtype — everything the core-metadata check can
observe. -/
def coreProj (m : Metadata) : List (String × String × String) :=
  m.schema.column_schemas.map fun kv =>
    (kv.1, kv.2.representation, kv.2.domainDtype)

def coreLookup (l : List (String × String × String)) (k : String) :
    Option (String × String) :=
  (l.find? fun kv => kv.1 == k).map Prod.snd

/-- The core-metadata success predicate expressed on core projections
only. -/
def coreMatchesProj (t e : List (String × String × String)) : Bool :=
  ((t.map Prod.fst).all fun k => (e.map Prod.fst).contains k) &&
  ((e.map Prod.fst).all fun k => (t.map Prod.fst).contains k) &&
  (t.all fun kv =>
    match coreLookup e kv.1 with
    | some pr => pr.1 == kv.2.1 && pr.2 == kv.2.2
    | none => false)

/-! ### Pipeline orchestration

The pipeline operations (`AnalyzeAndTransformDataset`, `AnalyzeDataset`,
`TransformDataset`, `ResolveBeamFutures`, `WriteTransformFn`, asset-file
reading) are external; `assertAnalyzeAndTransformResults` only wires them
together.  We model them as an abstract operations record, and record the
externally visible actions of a call (persisting the transform function,
invoking future resolution, reading an asset file) in an effect log. -/

structure PipelineOps where
  analyzeAndTransform : Dataset → Metadata → (Dataset × DeferredMetadata) × Nat
  analyzeDataset : Dataset → Metadata → Nat
  transformDataset : Dataset → Metadata → Nat → Dataset × DeferredMetadata
  resolveFutures : DeferredMetadata → List Metadata
  readAssetLines : String → List String

inductive Effect where
  | wroteTransformFn (transform_fn : Nat)
  | resolvedMetadata
  | readAsset (path : String)
deriving DecidableEq, Repr

def Effect.isWrite : Effect → Bool
  | .wroteTransformFn _ => true
  | _ => false

def Effect.isRead : Effect → Bool
  | .readAsset _ => true
  | _ => false

/-- The execution-mode selection (lines 144-153): a single fused
analyze-and-transform step when no test data is given, otherwise analyze
on the input data and transform of the test data under the input
metadata. -/
def computeTransformed (ops : PipelineOps) (input_data : Dataset)
    (input_metadata : Metadata) (test_data : Option Dataset) :
    (Dataset × DeferredMetadata) × Nat :=
  match test_data with
  | none => ops.analyzeAndTransform input_data input_metadata
  | some td =>
      let transform_fn := ops.analyzeDataset input_data input_metadata
      (ops.transformDataset td input_metadata transform_fn, transform_fn)

/-- The asset directory of the persisted transform function
(`os.path.join` of the temp dir, `TRANSFORM_FN_DIR`, the assets
directory and the filename, with the temp dir elided). -/
def assetPath (filename : String) : String := "transform_fn/assets/" ++ filename

/-- The asset-file loop (lines 186-190): read each named asset file and
compare its lines. -/
def checkAssets (ops : PipelineOps) :
    List (String × List String) → Except PyErr Unit × List Effect
  | [] => (.ok (), [])
  | (filename, file_contents) :: rest =>
      let lines := ops.readAssetLines (assetPath filename)
      if lines = file_contents then
        let r := checkAssets ops rest
        (r.1, .readAsset (assetPath filename) :: r.2)
      else
        (.error ⟨.assertionError,
           "asset file contents differ: " ++ reprStr filename⟩,
         [.readAsset (assetPath filename)])

/-- The data comparison step (lines 159-160): run only when expected data
is supplied. -/
def dataStep (expected_data : Option Dataset) (transformed_data : Dataset) :
    Except PyErr Unit :=
  match expected_data with
  | some ed => assertDataCloseOrEqual ed transformed_data
  | none => .ok ()

/-- The metadata step (lines 162-184): run only when the expected metadata
is truthy; resolve the deferred metadata, then compare either core fields
or the whole objects.  The second component logs whether the
future-resolution transform was invoked. -/
def metaStep (resolveFutures : DeferredMetadata → List Metadata)
    (expected_metadata : Option Metadata) (only_check_core_metadata : Bool)
    (transformed_metadata : DeferredMetadata) :
    Except PyErr Unit × List Effect :=
  match expected_metadata with
  | none => (.ok (), [])
  | some em =>
    if em.pyTruthy then
      match resolveDeferredMetadata resolveFutures transformed_metadata with
      | .error e => (.error e, [.resolvedMetadata])
      | .ok m =>
          ((if only_check_core_metadata then checkCoreMetadata m em
            else checkFullMetadata m em), [.resolvedMetadata])
    else (.ok (), [])

/-- `TransformTestCase.assertAnalyzeAndTransformResults` (lines 89-190):
outcome together with the log of external actions.  `preprocessing_fn`,
the temp directory and `desired_batch_size` are absorbed into `ops`; the
`None` default of `expected_asset_file_contents` and its replacement by
`{}` (lines 135-136) are modelled by the `Option`. -/
def assertAnalyzeAndTransformResults (ops : PipelineOps)
    (input_data : Dataset) (input_metadata : Metadata)
    (expected_data : Option Dataset) (expected_metadata : Option Metadata)
    (only_check_core_metadata : Bool)
    (expected_asset_file_contents : Option (List (String × List String)))
    (test_data : Option Dataset) : Except PyErr Unit × List Effect :=
  let eafc := expected_asset_file_contents.getD []
  let r := computeTransformed ops input_data input_metadata test_data
  let writeEffects : List Effect :=
    if eafc.isEmpty then [] else [.wroteTransformFn r.2]
  match dataStep expected_data r.1.1 with
  | .error e => (.error e, writeEffects)
  | .ok () =>
    let ms := metaStep ops.resolveFutures expected_metadata
      only_check_core_metadata r.1.2
    match ms.1 with
    | .error e => (.error e, writeEffects ++ ms.2)
    | .ok () =>
        let assetStep := checkAssets ops eafc
        (assetStep.1, writeEffects ++ ms.2 ++ assetStep.2)

/-! ### Characterisation lemmas for the comparison routines -/

theorem exceptBind_ok {α β : Type} (e : Except PyErr α) (k : α → Except PyErr β)
    (b : β) : (e >>= k) = .ok b ↔ ∃ a, e = .ok a ∧ k a = .ok b := by
  cases e <;> simp [Bind.bind, Except.bind]

theorem assertValuesCloseOrEqual_eq_wrap (a b : Value) (msg : Option String) :
    assertValuesCloseOrEqual a b msg = wrapAnnotate (compareBody a b) msg := by
  unfold assertValuesCloseOrEqual wrapAnnotate
  cases h : compareBody a b with
  | ok u => cases u; rfl
  | error e => rfl

theorem wrapAnnotate_ok_iff (r : Except PyErr Unit) (msg : Option String) :
    wrapAnnotate r msg = .ok () ↔ r = .ok () := by
  cases r with
  | ok u => cases u; simp [wrapAnnotate]
  | error e =>
      simp only [wrapAnnotate]
      constructor
      · intro hc
        split at hc <;> cases hc
      · intro hc
        cases hc

theorem assertValuesCloseOrEqual_ok_iff (a b : Value) (msg : Option String) :
    assertValuesCloseOrEqual a b msg = .ok () ↔ compareBody a b = .ok () := by
  rw [assertValuesCloseOrEqual_eq_wrap, wrapAnnotate_ok_iff]

theorem assertAllEqual_ok_iff (a b : Value) :
    assertAllEqual a b = .ok () ↔ exactMatches a b = true := by
  unfold assertAllEqual exactMatches
  cases ha : valueAsArrayLeaf a with
  | none => cases hb : valueAsArrayLeaf b <;> simp
  | some la =>
      cases hb : valueAsArrayLeaf b with
      | none => simp
      | some lb =>
          by_cases h : la = lb
          · simp [h]
          · simp [h]

theorem assertAllClose_ok_iff (a b : Value) :
    assertAllClose a b = .ok () ↔ closeMatches a b = true := by
  unfold assertAllClose closeMatches
  cases ha : toNumArr a with
  | error e => simp [Bind.bind, Except.bind]
  | ok na =>
      cases hb : toNumArr b with
      | error e => simp [Bind.bind, Except.bind]
      | ok nb =>
          simp only [Bind.bind, Except.bind]
          by_cases hs : sameShape na nb = true
          · by_cases hc : allCloseVals na nb = true
            · simp [hs, hc]
            · simp [hs, hc]
          · simp [hs]

theorem compareBody_ok_iff (a b : Value) :
    compareBody a b = .ok () ↔ leafMatches a b = true := by
  unfold compareBody leafMatches
  split
  · exact assertAllEqual_ok_iff a b
  · exact assertAllClose_ok_iff a b

theorem compareKV_ok_iff (i : Nat) (key : String) (a b : Value) :
    compareKV i key a b = .ok () ↔ valueMatches a b = true := by
  unfold compareKV valueMatches
  cases a with
  | leaf l =>
      rw [assertValuesCloseOrEqual_ok_iff, compareBody_ok_iff]
  | pair a0 a1 =>
      cases h0 : pyIndex b 0 with
      | error e => simp [Bind.bind, Except.bind]
      | ok b0 =>
          simp only [Bind.bind, Except.bind]
          cases hc0 : assertValuesCloseOrEqual (.leaf a0) (.leaf b0)
              (some (rowKeyMsg i key)) with
          | error e =>
              have : ¬ leafMatches (.leaf a0) (.leaf b0) = true := by
                rw [← compareBody_ok_iff, ← assertValuesCloseOrEqual_ok_iff
                  (Value.leaf a0) (Value.leaf b0) (some (rowKeyMsg i key))]
                simp [hc0]
              simp_all
          | ok u =>
              cases u
              have hm0 : leafMatches (.leaf a0) (.leaf b0) = true := by
                rw [← compareBody_ok_iff, ← assertValuesCloseOrEqual_ok_iff
                  (Value.leaf a0) (Value.leaf b0) (some (rowKeyMsg i key))]
                exact hc0
              cases h1 : pyIndex b 1 with
              | error e => simp [Bind.bind, Except.bind, hm0]
              | ok b1 =>
                  simp only [Bind.bind, Except.bind]
                  rw [assertValuesCloseOrEqual_ok_iff, compareBody_ok_iff]
                  simp [hm0]

theorem compareFields_ok_iff (i : Nat) (b_row : Row) (l : List (String × Value)) :
    compareFields i b_row l = .ok () ↔
      (l.all fun kv =>
        match lookupKey b_row kv.1 with
        | .ok bv => valueMatches kv.2 bv
        | .error _ => false) = true := by
  induction l with
  | nil => simp [compareFields]
  | cons kv rest ih =>
      obtain ⟨key, a_value⟩ := kv
      simp only [compareFields, List.all_cons]
      cases hl : lookupKey b_row key with
      | error e => simp [Bind.bind, Except.bind]
      | ok b_value =>
          simp only [Bind.bind, Except.bind]
          cases hc : compareKV i key a_value b_value with
          | error e =>
              have : ¬ valueMatches a_value b_value = true := by
                rw [← compareKV_ok_iff i key]
                simp [hc]
              simp_all
          | ok u =>
              cases u
              have hm : valueMatches a_value b_value = true :=
                (compareKV_ok_iff i key a_value b_value).mp hc
              simp [hm, ih]

theorem compareRow_ok_iff (i : Nat) (a_row b_row : Row) :
    compareRow i a_row b_row = .ok () ↔ rowMatches a_row b_row = true := by
  unfold compareRow rowMatches assertItemsEqual
  by_cases hk : msetEq (rowKeys a_row) (rowKeys b_row) = true
  · simp only [hk, if_pos trivial, if_true]
    simp only [Bind.bind, Except.bind]
    rw [compareFields_ok_iff]
    simp [hk]
  · simp [hk, Bind.bind, Except.bind]

theorem compareRowsFrom_ok_iff (i : Nat) (a_data b_data : Dataset) :
    compareRowsFrom i a_data b_data = .ok () ↔
      ((a_data.zip b_data).all fun p => rowMatches p.1 p.2) = true := by
  induction a_data generalizing i b_data with
  | nil => simp [compareRowsFrom]
  | cons a_row rest ih =>
      cases b_data with
      | nil => simp [compareRowsFrom]
      | cons b_row bs =>
          simp only [compareRowsFrom, List.zip_cons_cons, List.all_cons]
          simp only [Bind.bind, Except.bind]
          cases hr : compareRow i a_row b_row with
          | error e =>
              have : ¬ rowMatches a_row b_row = true := by
                rw [← compareRow_ok_iff i]
                simp [hr]
              simp_all
          | ok u =>
              cases u
              have hm : rowMatches a_row b_row = true :=
                (compareRow_ok_iff i a_row b_row).mp hr
              simp [hm, ih]

theorem assertDataCloseOrEqual_ok_iff (a_data b_data : Dataset) :
    assertDataCloseOrEqual a_data b_data = .ok () ↔
      dataMatches a_data b_data = true := by
  unfold assertDataCloseOrEqual dataMatches assertEqualNat
  by_cases hl : a_data.length = b_data.length
  · simp only [hl, if_pos trivial, if_true]
    simp only [Bind.bind, Except.bind]
    rw [compareRowsFrom_ok_iff]
    simp [hl]
  · simp [hl, Bind.bind, Except.bind]

/-! ### Reflexivity of the comparison on well-formed data -/

theorem ratClose_self (x : Rat) : ratClose x x = true := by
  unfold ratClose
  rw [decide_eq_true_eq, sub_self, abs_zero]
  unfold atol rtol
  positivity

theorem zip_self_allClose (xs : List Rat) :
    ((xs.zip xs).all fun p => ratClose p.1 p.2) = true := by
  induction xs with
  | nil => rfl
  | cons x rest ih => simp [ratClose_self, ih]

theorem primsToNums_of_allNum (l : List Prim) (h : l.all Prim.isNum = true) :
    ∃ xs, primsToNums l = some xs := by
  induction l with
  | nil => exact ⟨[], rfl⟩
  | cons p rest ih =>
      simp only [List.all_cons, Bool.and_eq_true] at h
      obtain ⟨xs, hxs⟩ := ih h.2
      cases p with
      | str s => simp [Prim.isNum] at h
      | num x =>
          refine ⟨x :: xs, ?_⟩
          simp [primsToNums, hxs]

theorem leafMatches_self (l : Leaf) (h : wfLeaf l = true) :
    leafMatches (.leaf l) (.leaf l) = true := by
  cases l with
  | prim p =>
      cases p with
      | str s =>
          simp [leafMatches, usesExactEquality, exactMatches, valueAsArrayLeaf]
      | num x =>
          simp [leafMatches, usesExactEquality, closeMatches, toNumArr,
            sameShape, allCloseVals, ratClose_self]
  | lst ps =>
      cases ps with
      | nil =>
          simp [leafMatches, usesExactEquality, closeMatches, toNumArr,
            primsToNums, sameShape, allCloseVals, Prim.isStr]
      | cons p rest =>
          cases p with
          | str s =>
              simp [leafMatches, usesExactEquality, Prim.isStr, exactMatches,
                valueAsArrayLeaf]
          | num x =>
              have hnum : (Prim.num x :: rest).all Prim.isNum = true := by
                simp only [wfLeaf, Bool.or_eq_true] at h
                rcases h with h | h
                · simp [Prim.isStr] at h
                · exact h
              obtain ⟨xs, hxs⟩ := primsToNums_of_allNum _ hnum
              simp [leafMatches, usesExactEquality, Prim.isStr, closeMatches,
                toNumArr, hxs, sameShape, allCloseVals, zip_self_allClose]

theorem valueMatches_self (v : Value) (h : wfValue v = true) :
    valueMatches v v = true := by
  cases v with
  | leaf l => exact leafMatches_self l h
  | pair a b =>
      simp only [wfValue, Bool.and_eq_true] at h
      simp [valueMatches, pyIndex, leafMatches_self a h.1, leafMatches_self b h.2]

theorem msetEq_self (xs : List String) : msetEq xs xs = true := by
  induction xs with
  | nil => rfl
  | cons x rest ih => simp [msetEq, List.erase_cons_head, ih]

theorem lookupKey_self (r : Row) (hnd : nodupKeys (rowKeys r) = true)
    (key : String) (v : Value) (hmem : (key, v) ∈ r) :
    lookupKey r key = .ok v := by
  induction r with
  | nil => cases hmem
  | cons kv rest ih =>
      obtain ⟨k0, v0⟩ := kv
      simp only [rowKeys, List.map_cons, nodupKeys, Bool.and_eq_true] at hnd
      rcases List.mem_cons.mp hmem with heq | hmem'
      · rw [Prod.mk.injEq] at heq
        obtain ⟨hk, hv⟩ := heq
        subst hk; subst hv
        simp [lookupKey, List.find?]
      · have hkmem : key ∈ rest.map Prod.fst :=
          List.mem_map_of_mem Prod.fst hmem'
        have hk : ¬ (k0 == key) = true := by
          intro hbeq
          rw [beq_iff_eq] at hbeq
          subst hbeq
          have hc := hnd.1
          rw [Bool.not_eq_true'] at hc
          have helem : (rest.map Prod.fst).elem k0 = true :=
            List.elem_eq_true_of_mem hkmem
          rw [List.contains] at hc
          rw [helem] at hc
          exact absurd hc (by decide)
        have ihr := ih hnd.2 hmem'
        simp only [lookupKey, List.find?] at ihr ⊢
        rw [Bool.not_eq_true] at hk
        rw [hk]
        exact ihr

theorem rowMatches_self (r : Row) (h : wfRow r = true) : rowMatches r r = true := by
  simp only [wfRow, Bool.and_eq_true] at h
  unfold rowMatches
  rw [Bool.and_eq_true]
  refine ⟨msetEq_self _, ?_⟩
  rw [List.all_eq_true]
  intro kv hmem
  have hl : lookupKey r kv.1 = .ok kv.2 := by
    refine lookupKey_self r h.1 kv.1 kv.2 ?_
    rw [Prod.mk.eta]
    exact hmem
  have hwf : wfValue kv.2 = true := by
    have := List.all_eq_true.mp h.2 kv hmem
    exact this
  simp [hl, valueMatches_self kv.2 hwf]

theorem zip_self_eq_map (d : Dataset) : d.zip d = d.map fun r => (r, r) := by
  induction d with
  | nil => rfl
  | cons r rest ih => simp [ih]

theorem dataMatches_self (d : Dataset) (h : wfDataset d = true) :
    dataMatches d d = true := by
  unfold dataMatches
  rw [Bool.and_eq_true]
  refine ⟨by simp, ?_⟩
  rw [zip_self_eq_map, List.all_eq_true]
  intro p hp
  rw [List.mem_map] at hp
  obtain ⟨r, hr, hpr⟩ := hp
  subst hpr
  exact rowMatches_self r (List.all_eq_true.mp h r hr)

/-! ### Error localisation for `assertDataCloseOrEqual` -/

theorem compareRowsFrom_keyset_err (n : Nat) :
    ∀ (i : Nat) (a_data b_data : Dataset) (ra rb : Row),
      (((a_data.zip b_data).take n).all fun p => rowMatches p.1 p.2) = true →
      a_data.get? n = some ra → b_data.get? n = some rb →
      msetEq (rowKeys ra) (rowKeys rb) = false →
      compareRowsFrom i a_data b_data =
        .error ⟨.assertionError,
          itemsDifferMsg (rowKeys ra) (rowKeys rb) ++ " : " ++
            ("Row " ++ toString (i + n))⟩ := by
  induction n with
  | zero =>
      intro i a_data b_data ra rb hpre ha hb hne
      cases a_data with
      | nil => simp at ha
      | cons a0 as_ =>
          cases b_data with
          | nil => simp at hb
          | cons b0 bs_ =>
              simp only [List.get?_cons_zero, Option.some.injEq] at ha hb
              subst ha; subst hb
              simp [compareRowsFrom, compareRow, assertItemsEqual, hne,
                Bind.bind, Except.bind]
  | succ n ih =>
      intro i a_data b_data ra rb hpre ha hb hne
      cases a_data with
      | nil => simp at ha
      | cons a0 as_ =>
          cases b_data with
          | nil => simp at hb
          | cons b0 bs_ =>
              simp only [List.zip_cons_cons, List.take_succ_cons,
                List.all_cons, Bool.and_eq_true] at hpre
              have hrow : compareRow i a0 b0 = .ok () :=
                (compareRow_ok_iff i a0 b0).mpr hpre.1
              simp only [compareRowsFrom, Bind.bind, Except.bind, hrow]
              have hrec := ih (i + 1) as_ bs_ ra rb hpre.2
                (by simpa using ha) (by simpa using hb) hne
              rw [hrec]
              have harith : i + 1 + n = i + (n + 1) := by omega
              rw [harith]

/-! ### Characterisation lemmas for the metadata checks -/

theorem assertEqualStr_ok_iff (x y : String) (m : Option String) :
    assertEqualStr x y m = .ok () ↔ x = y := by
  unfold assertEqualStr
  split <;> simp_all

theorem checkCoreColumns_ok_iff (expected : List (String × ColumnSchema))
    (l : List (String × ColumnSchema)) :
    checkCoreColumns expected l = .ok () ↔
      (l.all fun kv =>
        match dictLookup expected kv.1 with
        | some cs =>
            cs.representation == kv.2.representation &&
            cs.domainDtype == kv.2.domainDtype
        | none => false) = true := by
  induction l with
  | nil => simp [checkCoreColumns]
  | cons kv rest ih =>
      obtain ⟨k, v⟩ := kv
      simp only [checkCoreColumns, List.all_cons]
      cases hd : dictLookup expected k with
      | none => simp [Bind.bind, Except.bind]
      | some cs =>
          by_cases h1 : cs.representation = v.representation
          · by_cases h2 : cs.domainDtype = v.domainDtype
            · simp [assertEqualStr, h1, h2, ih, Bind.bind, Except.bind,
                Pure.pure, Except.pure]
            · simp [assertEqualStr, h1, h2, Bind.bind, Except.bind,
                Pure.pure, Except.pure]
          · simp [assertEqualStr, h1, Bind.bind, Except.bind, Pure.pure,
              Except.pure]

theorem checkCoreMetadata_ok_iff (t e : Metadata) :
    checkCoreMetadata t e = .ok () ↔ coreMetadataMatches t e = true := by
  unfold checkCoreMetadata assertSameElements
  by_cases hs : (((schemaKeys t).all fun k => (schemaKeys e).contains k) &&
      ((schemaKeys e).all fun k => (schemaKeys t).contains k)) = true
  · rw [if_pos hs]
    simp only [Bind.bind, Except.bind]
    rw [checkCoreColumns_ok_iff]
    unfold coreMetadataMatches
    rw [Bool.and_eq_true]
    constructor
    · intro hc
      exact ⟨hs, hc⟩
    · intro hc
      exact hc.2
  · rw [if_neg hs]
    unfold coreMetadataMatches
    simp only [Bind.bind, Except.bind]
    constructor
    · intro hc; cases hc
    · intro hc
      rw [Bool.and_eq_true] at hc
      exact absurd hc.1 hs

theorem schemaKeys_eq_coreProj_keys (m : Metadata) :
    schemaKeys m = (coreProj m).map Prod.fst := by
  unfold schemaKeys coreProj
  rw [List.map_map]
  rfl

theorem coreLookup_coreProj (l : List (String × ColumnSchema)) (k : String) :
    coreLookup (l.map fun kv => (kv.1, kv.2.representation, kv.2.domainDtype)) k
      = (dictLookup l k).map fun cs => (cs.representation, cs.domainDtype) := by
  induction l with
  | nil => rfl
  | cons kv rest ih =>
      simp only [List.map_cons, coreLookup, dictLookup, List.find?]
      cases hb : kv.1 == k
      · simpa [coreLookup, dictLookup] using ih
      · rfl

theorem coreCols_proj (ecs l : List (String × ColumnSchema)) :
    (l.all fun kv =>
      match dictLookup ecs kv.1 with
      | some cs =>
          cs.representation == kv.2.representation &&
          cs.domainDtype == kv.2.domainDtype
      | none => false)
    = ((l.map fun kv => (kv.1, kv.2.representation, kv.2.domainDtype)).all
        fun kv =>
          match coreLookup
              (ecs.map fun kv => (kv.1, kv.2.representation, kv.2.domainDtype))
              kv.1 with
          | some pr => pr.1 == kv.2.1 && pr.2 == kv.2.2
          | none => false) := by
  induction l with
  | nil => rfl
  | cons kv rest ih =>
      simp only [List.map_cons, List.all_cons]
      rw [ih]
      congr 1
      rw [coreLookup_coreProj]
      cases hd : dictLookup ecs kv.1 <;> rfl

theorem coreMetadataMatches_eq_proj (t e : Metadata) :
    coreMetadataMatches t e = coreMatchesProj (coreProj t) (coreProj e) := by
  unfold coreMetadataMatches coreMatchesProj
  rw [← schemaKeys_eq_coreProj_keys t, ← schemaKeys_eq_coreProj_keys e]
  have h := coreCols_proj e.schema.column_schemas t.schema.column_schemas
  have ht : coreProj t = t.schema.column_schemas.map fun kv =>
      (kv.1, kv.2.representation, kv.2.domainDtype) := rfl
  have he : coreProj e = e.schema.column_schemas.map fun kv =>
      (kv.1, kv.2.representation, kv.2.domainDtype) := rfl
  rw [ht, he, ← h]

theorem metadataEq_dictEq (a b : Metadata) (h : metadataEq a b = true) :
    dictEq a.schema.column_schemas b.schema.column_schemas = true := by
  simp only [metadataEq, Bool.and_eq_true] at h
  tauto

theorem checkFullMetadata_ok_iff (t e : Metadata) :
    checkFullMetadata t e = .ok () ↔ metadataEq e t = true := by
  unfold checkFullMetadata
  by_cases hm : metadataEq e t = true
  · have hd := metadataEq_dictEq e t hm
    simp [hd, hm, Bind.bind, Except.bind, Pure.pure, Except.pure]
  · by_cases hd : dictEq e.schema.column_schemas t.schema.column_schemas = true
    · simp [hd, hm, Bind.bind, Except.bind, Pure.pure, Except.pure]
    · simp [hd, hm, Bind.bind, Except.bind, Pure.pure, Except.pure]

/-! ### Classification of errors raised inside the leaf comparison -/

theorem toNumArr_err_kind (v : Value) (e : PyErr) (h : toNumArr v = .error e) :
    e.kind = .typeError := by
  cases v with
  | leaf l =>
      cases l with
      | prim p =>
          cases p with
          | str s =>
              simp only [toNumArr, Except.error.injEq] at h
              rw [← h]
          | num x =>
              simp only [toNumArr] at h
              cases h
      | lst l =>
          simp only [toNumArr] at h
          cases hp : primsToNums l with
          | none =>
              rw [hp] at h
              simp only [Except.error.injEq] at h
              rw [← h]
          | some xs =>
              rw [hp] at h
              cases h
  | pair a b =>
      cases a with
      | prim p =>
          cases p with
          | str s =>
              simp only [toNumArr, Except.error.injEq] at h
              rw [← h]
          | num x =>
              cases b with
              | prim q =>
                  cases q with
                  | str s =>
                      simp only [toNumArr, Except.error.injEq] at h
                      rw [← h]
                  | num y =>
                      simp only [toNumArr] at h
                      cases h
              | lst l =>
                  simp only [toNumArr, Except.error.injEq] at h
                  rw [← h]
      | lst l =>
          simp only [toNumArr, Except.error.injEq] at h
          rw [← h]

theorem assertAllEqual_err_kind (a b : Value) (e : PyErr)
    (h : assertAllEqual a b = .error e) : e.kind = .assertionError := by
  unfold assertAllEqual at h
  split at h
  · split at h
    · cases h
    · simp only [Except.error.injEq] at h
      rw [← h]
  · simp only [Except.error.injEq] at h
    rw [← h]

theorem assertAllClose_err_caught (a b : Value) (e : PyErr)
    (h : assertAllClose a b = .error e) : caughtKind e.kind = true := by
  unfold assertAllClose at h
  simp only [Bind.bind, Except.bind] at h
  split at h
  · rename_i ea hea
    simp only [Except.error.injEq] at h
    rw [← h, toNumArr_err_kind a ea hea]
    rfl
  · rename_i na hna
    split at h
    · rename_i eb heb
      simp only [Except.error.injEq] at h
      rw [← h, toNumArr_err_kind b eb heb]
      rfl
    · rename_i nb hnb
      split at h
      · split at h
        · cases h
        · simp only [Except.error.injEq] at h
          rw [← h]
          rfl
      · simp only [Except.error.injEq] at h
        rw [← h]
        rfl

theorem compareBody_err_caught (a b : Value) (e : PyErr)
    (h : compareBody a b = .error e) : caughtKind e.kind = true := by
  unfold compareBody at h
  by_cases hx : usesExactEquality a = true
  · rw [if_pos hx] at h
    rw [assertAllEqual_err_kind a b e h]
    rfl
  · rw [if_neg hx] at h
    exact assertAllClose_err_caught a b e h

/-! ### Claim theorems -/

/-- C1: in `_assertValuesCloseOrEqual`, a string value, or a non-empty list
value whose first element is a string, is compared with exact equality
(`assertAllEqual`); every other value — the empty list included — is
compared with approximate numeric closeness (`assertAllClose`); either way
the result is the chosen comparison wrapped by the annotating `except`
clause. -/
theorem C1_leaf_dispatch (a b : Value) (msg : Option String) :
    (((∃ s, a = .leaf (.prim (.str s))) ∨
      (∃ s rest, a = .leaf (.lst (.str s :: rest)))) →
      assertValuesCloseOrEqual a b msg = wrapAnnotate (assertAllEqual a b) msg)
  ∧ (¬ ((∃ s, a = .leaf (.prim (.str s))) ∨
        (∃ s rest, a = .leaf (.lst (.str s :: rest)))) →
      assertValuesCloseOrEqual a b msg = wrapAnnotate (assertAllClose a b) msg)
  ∧ (assertValuesCloseOrEqual (.leaf (.lst [])) b msg =
      wrapAnnotate (assertAllClose (.leaf (.lst [])) b) msg) := by
  have hcond : usesExactEquality a = true ↔
      ((∃ s, a = .leaf (.prim (.str s))) ∨
       (∃ s rest, a = .leaf (.lst (.str s :: rest)))) := by
    constructor
    · intro h
      cases a with
      | leaf l =>
          cases l with
          | prim p =>
              cases p with
              | str s => exact Or.inl ⟨s, rfl⟩
              | num x => simp [usesExactEquality] at h
          | lst ps =>
              cases ps with
              | nil => simp [usesExactEquality] at h
              | cons p rest =>
                  cases p with
                  | str s => exact Or.inr ⟨s, rest, rfl⟩
                  | num x => simp [usesExactEquality, Prim.isStr] at h
      | pair x y => simp [usesExactEquality] at h
    · intro h
      rcases h with ⟨s, hs⟩ | ⟨s, rest, hs⟩ <;> subst hs <;> rfl
  refine ⟨?_, ?_, ?_⟩
  · intro h
    rw [assertValuesCloseOrEqual_eq_wrap]
    unfold compareBody
    rw [if_pos (hcond.mpr h)]
  · intro h
    rw [assertValuesCloseOrEqual_eq_wrap]
    unfold compareBody
    rw [if_neg fun hx => h (hcond.mp hx)]
  · rw [assertValuesCloseOrEqual_eq_wrap]
    unfold compareBody
    rw [if_neg (by simp [usesExactEquality])]

/-- Witness for C1: the string path and the numeric path, each at a
concrete input. -/
theorem C1_leaf_dispatch_witness :
    assertValuesCloseOrEqual (.leaf (.prim (.str ("a"))))
        (.leaf (.prim (.str ("a")))) (some ("Row 0, key k")) =
      wrapAnnotate (assertAllEqual (.leaf (.prim (.str ("a"))))
        (.leaf (.prim (.str ("a"))))) (some ("Row 0, key k")) ∧
    assertValuesCloseOrEqual (.leaf (.prim (.num 2)))
        (.leaf (.prim (.num 2))) (some ("Row 0, key k")) =
      wrapAnnotate (assertAllClose (.leaf (.prim (.num 2)))
        (.leaf (.prim (.num 2)))) (some ("Row 0, key k")) :=
  ⟨(C1_leaf_dispatch _ _ _).1 (Or.inl ⟨"a", rfl⟩),
   (C1_leaf_dispatch (.leaf (.prim (.num 2))) _ _).2.1
     (by rintro (⟨s, hs⟩ | ⟨s, rest, hs⟩) <;> simp at hs)⟩

/-- C8: the comparison path is decided by the expected value alone: the
tuple branch of `assertDataCloseOrEqual` is taken exactly when the
expected value is a pair, whatever the actual value is, and the
exact-versus-close dispatch of the leaf comparison is `usesExactEquality`
applied to the expected value only. -/
theorem C8_dispatch_on_expected (i : Nat) (key : String) (b : Value) :
    (∀ a0 a1, compareKV i key (.pair a0 a1) b = (do
        let b0 ← pyIndex b 0
        assertValuesCloseOrEqual (.leaf a0) (.leaf b0) (some (rowKeyMsg i key))
        let b1 ← pyIndex b 1
        assertValuesCloseOrEqual (.leaf a1) (.leaf b1) (some (rowKeyMsg i key))))
  ∧ (∀ l, compareKV i key (.leaf l) b =
      assertValuesCloseOrEqual (.leaf l) b (some (rowKeyMsg i key)))
  ∧ (∀ a msg, assertValuesCloseOrEqual a b msg =
      wrapAnnotate
        (if usesExactEquality a then assertAllEqual a b
         else assertAllClose a b) msg) := by
  refine ⟨fun a0 a1 => rfl, fun l => rfl, fun a msg => ?_⟩
  rw [assertValuesCloseOrEqual_eq_wrap]
  rfl

/-- C6 counterexample: a numeric expected value against a string actual
value raises a `TypeError` inside the leaf comparison; it is re-raised
annotated but still as a `TypeError`, not as an assertion failure as the
claim states. -/
theorem C6_counterexample :
    assertValuesCloseOrEqual (.leaf (.prim (.num 1)))
        (.leaf (.prim (.str ("x")))) (some ("Row 0, key a")) =
      .error ⟨.typeError,
        "cannot perform numeric comparison on string data : Row 0, key a"⟩ ∧
    ErrKind.typeError ≠ ErrKind.assertionError := by
  exact ⟨rfl, by decide⟩

/-- C6 (amended): every error raised by the leaf comparison inside
`_assertValuesCloseOrEqual` is an `AssertionError` or a `TypeError`, is
caught, and is re-raised with the row/field context appended to its
message; the exception class is preserved (a type error stays a type
error), so no raw unannotated type error reaches the caller. -/
theorem C6_annotated_reraise (a b : Value) (m : String) (e : PyErr)
    (hbody : compareBody a b = .error e) (hm : ¬ m = "") :
    caughtKind e.kind = true ∧
    assertValuesCloseOrEqual a b (some m) =
      .error ⟨e.kind, e.msg ++ " : " ++ m⟩ := by
  have hc := compareBody_err_caught a b e hbody
  refine ⟨hc, ?_⟩
  rw [assertValuesCloseOrEqual_eq_wrap, hbody]
  simp only [wrapAnnotate]
  rw [if_pos hc]
  simp only [pyAnnotate]
  rw [if_neg hm]

/-- Witness for C6 (amended) at a concrete caught `TypeError`. -/
theorem C6_annotated_reraise_witness :
    compareBody (.leaf (.prim (.num 1))) (.leaf (.prim (.str ("x")))) =
      .error ⟨.typeError, "cannot perform numeric comparison on string data"⟩ ∧
    ¬ ("Row 1, key b" : String) = "" ∧
    caughtKind ErrKind.typeError = true ∧
    assertValuesCloseOrEqual (.leaf (.prim (.num 1)))
        (.leaf (.prim (.str ("x")))) (some ("Row 1, key b")) =
      .error ⟨.typeError,
        "cannot perform numeric comparison on string data : Row 1, key b"⟩ :=
  ⟨rfl, by decide,
   (C6_annotated_reraise (.leaf (.prim (.num 1))) (.leaf (.prim (.str ("x"))))
     "Row 1, key b"
     ⟨.typeError, "cannot perform numeric comparison on string data"⟩
     rfl (by decide)).1,
   (C6_annotated_reraise (.leaf (.prim (.num 1))) (.leaf (.prim (.str ("x"))))
     "Row 1, key b"
     ⟨.typeError, "cannot perform numeric comparison on string data"⟩
     rfl (by decide)).2⟩

/-- C2 (amended): `assertDataCloseOrEqual` is reflexive on well-formed
datasets (homogeneous lists, duplicate-free field names), and on arbitrary
datasets it succeeds exactly when the expected-driven matcher
`dataMatches` holds: equal lengths, per-row equal key multisets, and per
field a match driven by the expected value (an expected pair is compared
element-wise against the actual value subscripted at 0 and 1; other values
use exact equality when string-typed or string-headed, numeric closeness
otherwise). -/
theorem C2_data_close_or_equal (a_data b_data : Dataset) :
    (wfDataset a_data = true → assertDataCloseOrEqual a_data a_data = .ok ())
  ∧ (assertDataCloseOrEqual a_data b_data = .ok () ↔
      dataMatches a_data b_data = true) := by
  refine ⟨fun hwf => ?_, assertDataCloseOrEqual_ok_iff a_data b_data⟩
  rw [assertDataCloseOrEqual_ok_iff]
  exact dataMatches_self a_data hwf

/-- Witness for C2 at a concrete well-formed dataset. -/
theorem C2_data_close_or_equal_witness :
    wfDataset [[("a", Value.leaf (.prim (.num 1))),
                ("b", Value.pair (.lst [.str ("u")]) (.lst [.num 3]))]] = true ∧
    assertDataCloseOrEqual
      [[("a", Value.leaf (.prim (.num 1))),
        ("b", Value.pair (.lst [.str ("u")]) (.lst [.num 3]))]]
      [[("a", Value.leaf (.prim (.num 1))),
        ("b", Value.pair (.lst [.str ("u")]) (.lst [.num 3]))]] = .ok () :=
  ⟨by decide,
   (C2_data_close_or_equal
     [[("a", Value.leaf (.prim (.num 1))),
       ("b", Value.pair (.lst [.str ("u")]) (.lst [.num 3]))]]
     [[("a", Value.leaf (.prim (.num 1))),
       ("b", Value.pair (.lst [.str ("u")]) (.lst [.num 3]))]]).1 (by decide)⟩

/-- C2 counterexample: the claim as stated — success if and only if the
values are equal in kind (strings exact, numerics close, pairs against
pairs element-wise) — fails: an expected pair of strings against the
actual single string of their concatenation succeeds in the code, because
the actual value is subscripted at 0 and 1 whatever its type, although the
two values are not equal in the sense of the claim (`specValueEq`). -/
theorem C2_counterexample :
    ([[("a", Value.pair (.prim (.str ("x"))) (.prim (.str ("y"))))]] : Dataset).length
      = ([[("a", Value.leaf (.prim (.str ("xy"))))]] : Dataset).length ∧
    rowKeys [("a", Value.pair (.prim (.str ("x"))) (.prim (.str ("y"))))] =
      rowKeys [("a", Value.leaf (.prim (.str ("xy"))))] ∧
    assertDataCloseOrEqual
      [[("a", Value.pair (.prim (.str ("x"))) (.prim (.str ("y"))))]]
      [[("a", Value.leaf (.prim (.str ("xy"))))]] = .ok () ∧
    specValueEq (Value.pair (.prim (.str ("x"))) (.prim (.str ("y"))))
      (Value.leaf (.prim (.str ("xy")))) = false := by
  refine ⟨rfl, rfl, rfl, rfl⟩

/-- C5: for datasets of differing length, `assertDataCloseOrEqual` fails
immediately with an assertion error whose message reports both lengths and
both sequences, before any per-row comparison (the result is the length
error whatever the row contents); and when every row pair before index `n`
fully matches but at index `n` one row has a field the other lacks
(different key multisets), it fails with an assertion error annotated with
that row index. -/
theorem C5_error_reporting :
    (∀ a_data b_data : Dataset, a_data.length ≠ b_data.length →
      assertDataCloseOrEqual a_data b_data =
        .error ⟨.assertionError,
          toString a_data.length ++ " != " ++ toString b_data.length ++ " : "
            ++ lenMsg a_data b_data⟩)
  ∧ (∀ (a_data b_data : Dataset) (n : Nat) (ra rb : Row),
      a_data.length = b_data.length →
      (((a_data.zip b_data).take n).all fun p => rowMatches p.1 p.2) = true →
      a_data.get? n = some ra → b_data.get? n = some rb →
      msetEq (rowKeys ra) (rowKeys rb) = false →
      assertDataCloseOrEqual a_data b_data =
        .error ⟨.assertionError,
          itemsDifferMsg (rowKeys ra) (rowKeys rb) ++ " : " ++
            ("Row " ++ toString n)⟩) := by
  constructor
  · intro a_data b_data hne
    unfold assertDataCloseOrEqual assertEqualNat
    rw [if_neg hne]
    simp [Bind.bind, Except.bind]
  · intro a_data b_data n ra rb hlen hpre ha hb hne
    unfold assertDataCloseOrEqual assertEqualNat
    rw [if_pos hlen]
    simp only [Bind.bind, Except.bind]
    have hr := compareRowsFrom_keyset_err n 0 a_data b_data ra rb hpre ha hb hne
    rw [Nat.zero_add] at hr
    exact hr

/-- Witness for C5: a length mismatch, and a key-set mismatch at row 0. -/
theorem C5_error_reporting_witness :
    (([] : Dataset).length ≠ ([[]] : Dataset).length ∧
     assertDataCloseOrEqual [] [[]] =
       .error ⟨.assertionError,
         toString ([] : Dataset).length ++ " != " ++
           toString ([[]] : Dataset).length ++ " : " ++ lenMsg [] [[]]⟩) ∧
    assertDataCloseOrEqual [[("a", Value.leaf (.prim (.num 1)))]]
        [[("b", Value.leaf (.prim (.num 1)))]] =
      .error ⟨.assertionError,
        itemsDifferMsg (rowKeys [("a", Value.leaf (.prim (.num 1)))])
            (rowKeys [("b", Value.leaf (.prim (.num 1)))]) ++ " : " ++
          ("Row " ++ toString 0)⟩ := by
  constructor
  · exact ⟨by decide, C5_error_reporting.1 [] [[]] (by decide)⟩
  · exact C5_error_reporting.2 [[("a", Value.leaf (.prim (.num 1)))]]
      [[("b", Value.leaf (.prim (.num 1)))]] 0
      [("a", Value.leaf (.prim (.num 1)))]
      [("b", Value.leaf (.prim (.num 1)))] rfl rfl rfl rfl rfl

/-- C7: `_resolveDeferredMetadata` dispatches on the `pcollections` field
of the wrapper: when empty it reads `dataset_metadata` directly, otherwise
it resolves futures through the framework and unwraps the first element of
the result (an index error when that result is empty); it then asserts
that substituting an empty override mapping leaves no unresolved futures,
raising an assertion error when a placeholder remains, and otherwise
returns the resolved metadata. -/
theorem C7_resolve_dispatch (resolveFutures : DeferredMetadata → List Metadata)
    (tm : DeferredMetadata) :
    (tm.pcollections = [] →
      resolveDeferredMetadata resolveFutures tm =
        (if substituteFuturesEmpty tm.dataset_metadata = [] then
          .ok tm.dataset_metadata
         else .error ⟨.assertionError,
           reprStr (substituteFuturesEmpty tm.dataset_metadata) ++ " != []"⟩))
  ∧ (tm.pcollections ≠ [] → resolveFutures tm = [] →
      resolveDeferredMetadata resolveFutures tm =
        .error ⟨.indexError, "list index out of range"⟩)
  ∧ (∀ m rest, tm.pcollections ≠ [] → resolveFutures tm = m :: rest →
      resolveDeferredMetadata resolveFutures tm =
        (if substituteFuturesEmpty m = [] then .ok m
         else .error ⟨.assertionError,
           reprStr (substituteFuturesEmpty m) ++ " != []"⟩)) := by
  refine ⟨?_, ?_, ?_⟩
  · intro hp
    unfold resolveDeferredMetadata assertNoFutures
    rw [hp]
    by_cases hf : substituteFuturesEmpty tm.dataset_metadata = []
    · simp [hf, Bind.bind, Except.bind, Pure.pure, Except.pure]
    · simp [hf, Bind.bind, Except.bind, Pure.pure, Except.pure]
  · intro hp hr
    unfold resolveDeferredMetadata
    have hpe : tm.pcollections.isEmpty = false := by
      cases hq : tm.pcollections with
      | nil => exact absurd hq hp
      | cons x xs => rfl
    simp [hpe, hr, Bind.bind, Except.bind]
  · intro m rest hp hr
    unfold resolveDeferredMetadata assertNoFutures
    have hpe : tm.pcollections.isEmpty = false := by
      cases hq : tm.pcollections with
      | nil => exact absurd hq hp
      | cons x xs => rfl
    by_cases hf : substituteFuturesEmpty m = []
    · simp [hpe, hr, hf, Bind.bind, Except.bind, Pure.pure, Except.pure]
    · simp [hpe, hr, hf, Bind.bind, Except.bind, Pure.pure, Except.pure]

/-- Witness for C7: both dispatch branches and both assertion outcomes at
concrete wrappers. -/
theorem C7_resolve_dispatch_witness :
    (resolveDeferredMetadata (fun _ => [])
        ⟨[], ⟨⟨[]⟩, "", [], true⟩⟩ =
      (if substituteFuturesEmpty (⟨⟨[]⟩, "", [], true⟩ : Metadata) = [] then
        .ok (⟨⟨[]⟩, "", [], true⟩ : Metadata)
       else .error ⟨.assertionError,
         reprStr (substituteFuturesEmpty (⟨⟨[]⟩, "", [], true⟩ : Metadata))
           ++ " != []"⟩))
  ∧ (resolveDeferredMetadata (fun _ => []) ⟨[7], ⟨⟨[]⟩, "", [], true⟩⟩ =
      .error ⟨.indexError, "list index out of range"⟩)
  ∧ (resolveDeferredMetadata (fun _ => [⟨⟨[]⟩, "m", ["f"], true⟩])
        ⟨[7], ⟨⟨[]⟩, "", [], true⟩⟩ =
      (if substituteFuturesEmpty (⟨⟨[]⟩, "m", ["f"], true⟩ : Metadata) = [] then
        .ok (⟨⟨[]⟩, "m", ["f"], true⟩ : Metadata)
       else .error ⟨.assertionError,
         reprStr (substituteFuturesEmpty (⟨⟨[]⟩, "m", ["f"], true⟩ : Metadata))
           ++ " != []"⟩)) :=
  ⟨(C7_resolve_dispatch (fun _ => []) ⟨[], ⟨⟨[]⟩, "", [], true⟩⟩).1 rfl,
   (C7_resolve_dispatch (fun _ => []) ⟨[7], ⟨⟨[]⟩, "", [], true⟩⟩).2.1
     (by simp) rfl,
   (C7_resolve_dispatch (fun _ => [⟨⟨[]⟩, "m", ["f"], true⟩])
       ⟨[7], ⟨⟨[]⟩, "", [], true⟩⟩).2.2 ⟨⟨[]⟩, "m", ["f"], true⟩ []
     (by simp) rfl⟩

/-- C3: with no test data, the transformed data and metadata are produced
by the single fused `AnalyzeAndTransformDataset` step on (input data,
input metadata); with test data supplied — even when it equals the input
data — `AnalyzeDataset` runs on (input data, input metadata) to produce
the transform function, which `TransformDataset` then applies to
(test data, input metadata); the data comparison of
`assertAnalyzeAndTransformResults` receives exactly the dataset produced
by the selected mode. -/
theorem C3_execution_mode (ops : PipelineOps) (input_data : Dataset)
    (input_metadata : Metadata) :
    (computeTransformed ops input_data input_metadata none =
      ops.analyzeAndTransform input_data input_metadata)
  ∧ (∀ test_data, computeTransformed ops input_data input_metadata (some test_data) =
      (ops.transformDataset test_data input_metadata
        (ops.analyzeDataset input_data input_metadata),
       ops.analyzeDataset input_data input_metadata))
  ∧ (∀ expected_data core,
      (assertAnalyzeAndTransformResults ops input_data input_metadata
        (some expected_data) none core none none).1 =
      assertDataCloseOrEqual expected_data
        (ops.analyzeAndTransform input_data input_metadata).1.1)
  ∧ (∀ expected_data core test_data,
      (assertAnalyzeAndTransformResults ops input_data input_metadata
        (some expected_data) none core none (some test_data)).1 =
      assertDataCloseOrEqual expected_data
        (ops.transformDataset test_data input_metadata
          (ops.analyzeDataset input_data input_metadata)).1) := by
  refine ⟨rfl, fun td => rfl, fun ed core => ?_, fun ed core td => ?_⟩
  · unfold assertAnalyzeAndTransformResults
    cases h : assertDataCloseOrEqual ed
        (ops.analyzeAndTransform input_data input_metadata).1.1 with
    | ok u =>
        cases u
        simp [computeTransformed, dataStep, metaStep, h, checkAssets]
    | error e =>
        simp [computeTransformed, dataStep, metaStep, h]
  · unfold assertAnalyzeAndTransformResults
    cases h : assertDataCloseOrEqual ed
        (ops.transformDataset td input_metadata
          (ops.analyzeDataset input_data input_metadata)).1 with
    | ok u =>
        cases u
        simp [computeTransformed, dataStep, metaStep, h, checkAssets]
    | error e =>
        simp [computeTransformed, dataStep, metaStep, h]

/-! ### Effect-log lemmas for the orchestration -/

theorem checkAssets_effects_read (ops : PipelineOps)
    (l : List (String × List String)) :
    ((checkAssets ops l).2.all fun e => e.isRead) = true := by
  induction l with
  | nil => rfl
  | cons kv rest ih =>
      obtain ⟨f, c⟩ := kv
      simp only [checkAssets]
      split
      · simp only [List.all_cons, Bool.and_eq_true]
        exact ⟨rfl, ih⟩
      · rfl

theorem resolvedMetadata_not_mem_checkAssets (ops : PipelineOps)
    (l : List (String × List String)) :
    Effect.resolvedMetadata ∉ (checkAssets ops l).2 := by
  intro hm
  have := List.all_eq_true.mp (checkAssets_effects_read ops l) _ hm
  simp [Effect.isRead] at this

theorem checkAssets_no_write (ops : PipelineOps)
    (l : List (String × List String)) (e : Effect)
    (he : e ∈ (checkAssets ops l).2) : e.isWrite = false := by
  have := List.all_eq_true.mp (checkAssets_effects_read ops l) _ he
  cases e with
  | readAsset p => rfl
  | wroteTransformFn t => simp [Effect.isRead] at this
  | resolvedMetadata => simp [Effect.isRead] at this

theorem metaStep_effects (resolveFutures : DeferredMetadata → List Metadata)
    (em : Option Metadata) (core : Bool) (tm : DeferredMetadata) :
    ∀ e ∈ (metaStep resolveFutures em core tm).2,
      e = Effect.resolvedMetadata := by
  intro e he
  cases em with
  | none => simp [metaStep] at he
  | some m =>
      by_cases ht : m.pyTruthy = true
      · simp only [metaStep] at he
        rw [if_pos ht] at he
        cases hres : resolveDeferredMetadata resolveFutures tm with
        | error er =>
            rw [hres] at he
            simp at he
            exact he
        | ok mm =>
            rw [hres] at he
            simp at he
            exact he
      · simp only [metaStep] at he
        rw [if_neg ht] at he
        simp at he

theorem metaStep_falsy (resolveFutures : DeferredMetadata → List Metadata)
    (em : Metadata) (core : Bool) (tm : DeferredMetadata)
    (h : em.pyTruthy = false) :
    metaStep resolveFutures (some em) core tm = (.ok (), []) := by
  simp only [metaStep]
  rw [h]
  simp

theorem run_none_effects_clean (ops : PipelineOps) (i_data : Dataset)
    (i_meta : Metadata) (ed : Option Dataset) (em : Option Metadata)
    (core : Bool) (td : Option Dataset) :
    ((assertAnalyzeAndTransformResults ops i_data i_meta ed em core
        none td).2.all fun e => !e.isWrite && !e.isRead) = true := by
  unfold assertAnalyzeAndTransformResults
  cases hd : dataStep ed (computeTransformed ops i_data i_meta td).1.1 with
  | error e => simp [hd]
  | ok u =>
      cases u
      cases hm : (metaStep ops.resolveFutures em core
          (computeTransformed ops i_data i_meta td).1.2).1 with
      | error e =>
          simp only [hd, hm, Option.getD_none, List.isEmpty_nil, if_true,
            List.nil_append]
          rw [List.all_eq_true]
          intro x hx
          rw [metaStep_effects ops.resolveFutures em core _ x hx]
          rfl
      | ok u2 =>
          cases u2
          simp only [hd, hm, Option.getD_none, List.isEmpty_nil, if_true,
            List.nil_append, checkAssets, List.append_nil]
          rw [List.all_eq_true]
          intro x hx
          rw [metaStep_effects ops.resolveFutures em core _ x hx]
          rfl

theorem any_write_false_of_clean (L : List Effect)
    (h : (L.all fun e => !e.isWrite && !e.isRead) = true) :
    (L.any fun e => e.isWrite) = false := by
  cases hany : L.any fun e => e.isWrite with
  | false => rfl
  | true =>
      obtain ⟨e, he, hw⟩ := List.any_eq_true.mp hany
      have hc := List.all_eq_true.mp h _ he
      rw [hw] at hc
      simp at hc

/-- C9: a falsy expected metadata (a metadata object with false Python
truthiness) behaves exactly like `None`: the call is identical to one with
no expected metadata, and in particular the future-resolution transform is
never invoked — the run can succeed without resolving metadata at all. -/
theorem C9_metadata_skipped_when_falsy (ops : PipelineOps)
    (input_data : Dataset) (input_metadata : Metadata)
    (expected_data : Option Dataset) (em : Metadata) (core : Bool)
    (eafc : Option (List (String × List String))) (test_data : Option Dataset)
    (hfalsy : em.pyTruthy = false) :
    assertAnalyzeAndTransformResults ops input_data input_metadata
      expected_data (some em) core eafc test_data =
    assertAnalyzeAndTransformResults ops input_data input_metadata
      expected_data none core eafc test_data ∧
    Effect.resolvedMetadata ∉
      (assertAnalyzeAndTransformResults ops input_data input_metadata
        expected_data (some em) core eafc test_data).2 := by
  have hms : metaStep ops.resolveFutures (some em) core
      (computeTransformed ops input_data input_metadata test_data).1.2 =
      (.ok (), []) := metaStep_falsy _ em core _ hfalsy
  have heq : assertAnalyzeAndTransformResults ops input_data input_metadata
      expected_data (some em) core eafc test_data =
      assertAnalyzeAndTransformResults ops input_data input_metadata
        expected_data none core eafc test_data := by
    unfold assertAnalyzeAndTransformResults
    simp only [hms, show metaStep ops.resolveFutures none core
      (computeTransformed ops input_data input_metadata test_data).1.2 =
      (.ok (), []) from rfl]
  refine ⟨heq, ?_⟩
  rw [heq]
  unfold assertAnalyzeAndTransformResults
  cases hd : dataStep expected_data
      (computeTransformed ops input_data input_metadata test_data).1.1 with
  | error e =>
      simp only [hd]
      split <;> simp
  | ok u =>
      cases u
      simp only [hd, show metaStep ops.resolveFutures none core
        (computeTransformed ops input_data input_metadata test_data).1.2 =
        (.ok (), []) from rfl, List.append_nil]
      rw [List.mem_append, not_or]
      constructor
      · split <;> simp
      · exact resolvedMetadata_not_mem_checkAssets ops _

/-- Witness for C9 at a concrete falsy metadata object, with transformed
metadata that still contains unresolved futures. -/
theorem C9_metadata_skipped_when_falsy_witness :
    ((⟨⟨[]⟩, "", ["unresolved"], false⟩ : Metadata).pyTruthy = false) ∧
    (assertAnalyzeAndTransformResults
        ⟨fun d _ => ((d, ⟨[], ⟨⟨[]⟩, "", ["unresolved"], true⟩⟩), 0),
         fun _ _ => 0, fun d _ _ => (d, ⟨[], ⟨⟨[]⟩, "", ["unresolved"], true⟩⟩),
         fun _ => [], fun _ => []⟩
        [] ⟨⟨[]⟩, "", [], true⟩ none
        (some ⟨⟨[]⟩, "", ["unresolved"], false⟩) false none none =
      assertAnalyzeAndTransformResults
        ⟨fun d _ => ((d, ⟨[], ⟨⟨[]⟩, "", ["unresolved"], true⟩⟩), 0),
         fun _ _ => 0, fun d _ _ => (d, ⟨[], ⟨⟨[]⟩, "", ["unresolved"], true⟩⟩),
         fun _ => [], fun _ => []⟩
        [] ⟨⟨[]⟩, "", [], true⟩ none none false none none) ∧
    Effect.resolvedMetadata ∉
      (assertAnalyzeAndTransformResults
        ⟨fun d _ => ((d, ⟨[], ⟨⟨[]⟩, "", ["unresolved"], true⟩⟩), 0),
         fun _ _ => 0, fun d _ _ => (d, ⟨[], ⟨⟨[]⟩, "", ["unresolved"], true⟩⟩),
         fun _ => [], fun _ => []⟩
        [] ⟨⟨[]⟩, "", [], true⟩ none
        (some ⟨⟨[]⟩, "", ["unresolved"], false⟩) false none none).2 :=
  ⟨rfl,
   (C9_metadata_skipped_when_falsy
     ⟨fun d _ => ((d, ⟨[], ⟨⟨[]⟩, "", ["unresolved"], true⟩⟩), 0),
      fun _ _ => 0, fun d _ _ => (d, ⟨[], ⟨⟨[]⟩, "", ["unresolved"], true⟩⟩),
      fun _ => [], fun _ => []⟩
     [] ⟨⟨[]⟩, "", [], true⟩ none ⟨⟨[]⟩, "", ["unresolved"], false⟩ false
     none none rfl).1,
   (C9_metadata_skipped_when_falsy
     ⟨fun d _ => ((d, ⟨[], ⟨⟨[]⟩, "", ["unresolved"], true⟩⟩), 0),
      fun _ _ => 0, fun d _ _ => (d, ⟨[], ⟨⟨[]⟩, "", ["unresolved"], true⟩⟩),
      fun _ => [], fun _ => []⟩
     [] ⟨⟨[]⟩, "", [], true⟩ none ⟨⟨[]⟩, "", ["unresolved"], false⟩ false
     none none rfl).2⟩

/-- C10: the transform function is persisted if and only if the expected
asset-file mapping is non-empty; passing an empty dict behaves identically
to passing `None` — the two calls are equal outright — and a `None`/empty
call performs no write and reads no asset file at all. -/
theorem C10_write_iff_assets (ops : PipelineOps) (input_data : Dataset)
    (input_metadata : Metadata) (expected_data : Option Dataset)
    (expected_metadata : Option Metadata) (core : Bool)
    (test_data : Option Dataset) :
    (assertAnalyzeAndTransformResults ops input_data input_metadata
      expected_data expected_metadata core none test_data =
     assertAnalyzeAndTransformResults ops input_data input_metadata
      expected_data expected_metadata core (some []) test_data)
  ∧ (∀ A, ((assertAnalyzeAndTransformResults ops input_data input_metadata
        expected_data expected_metadata core (some A) test_data).2.any
        fun e => e.isWrite) = !A.isEmpty)
  ∧ (((assertAnalyzeAndTransformResults ops input_data input_metadata
        expected_data expected_metadata core none test_data).2.all
        fun e => !e.isWrite && !e.isRead) = true) := by
  refine ⟨rfl, ?_, run_none_effects_clean ops input_data input_metadata
    expected_data expected_metadata core test_data⟩
  intro A
  cases A with
  | nil =>
      exact any_write_false_of_clean _
        (run_none_effects_clean ops input_data input_metadata expected_data
          expected_metadata core test_data)
  | cons a rest =>
      unfold assertAnalyzeAndTransformResults
      cases hd : dataStep expected_data
          (computeTransformed ops input_data input_metadata test_data).1.1 with
      | error e => simp [hd, Effect.isWrite]
      | ok u =>
          cases u
          cases hm : (metaStep ops.resolveFutures expected_metadata core
              (computeTransformed ops input_data input_metadata
                test_data).1.2).1 with
          | error e => simp [hd, hm, Effect.isWrite]
          | ok u2 =>
              cases u2
              simp [hd, hm, Effect.isWrite]

/-- C4: with `only_check_core_metadata = True` the metadata check succeeds
exactly when transformed and expected metadata agree on the feature-name
set and, per transformed feature, on representation and domain dtype in
the expected schema — so two metadata objects differing in any non-core
field (per-column extra info, non-schema fields, futures, truthiness) are
interchangeable whenever their core projections agree; with the flag
`False`, the full `column_schemas` dicts and the entire metadata objects
must be equal; and within `assertAnalyzeAndTransformResults` (truthy
expected metadata, no other checks requested) the outcome is exactly the
resolve-then-check pipeline. -/
theorem C4_core_metadata (transformed expected : Metadata) :
    (checkCoreMetadata transformed expected = .ok () ↔
      coreMetadataMatches transformed expected = true)
  ∧ (∀ t e : Metadata, coreProj transformed = coreProj t →
      coreProj expected = coreProj e →
      (checkCoreMetadata t e = .ok () ↔
       checkCoreMetadata transformed expected = .ok ()))
  ∧ (checkFullMetadata transformed expected = .ok () ↔
      (dictEq expected.schema.column_schemas
          transformed.schema.column_schemas = true ∧
       metadataEq expected transformed = true))
  ∧ (∀ (ops : PipelineOps) (input_data : Dataset) (input_metadata : Metadata)
        (em : Metadata) (core : Bool), em.pyTruthy = true →
      (assertAnalyzeAndTransformResults ops input_data input_metadata none
        (some em) core none none).1 =
      (match resolveDeferredMetadata ops.resolveFutures
          (computeTransformed ops input_data input_metadata none).1.2 with
       | .error e => .error e
       | .ok m => if core then checkCoreMetadata m em
                  else checkFullMetadata m em)) := by
  refine ⟨checkCoreMetadata_ok_iff transformed expected, ?_, ?_, ?_⟩
  · intro t e ht he
    rw [checkCoreMetadata_ok_iff, checkCoreMetadata_ok_iff,
      coreMetadataMatches_eq_proj, coreMetadataMatches_eq_proj transformed
        expected, ht, he]
  · rw [checkFullMetadata_ok_iff]
    constructor
    · intro hm
      exact ⟨metadataEq_dictEq _ _ hm, hm⟩
    · intro h
      exact h.2
  · intro ops i_data i_meta em core htr
    unfold assertAnalyzeAndTransformResults
    cases hres : resolveDeferredMetadata ops.resolveFutures
        (computeTransformed ops i_data i_meta none).1.2 with
    | error e =>
        simp [dataStep, metaStep, htr, hres, checkAssets]
    | ok m =>
        cases hchk : (if core then checkCoreMetadata m em
            else checkFullMetadata m em) with
        | ok u =>
            cases u
            simp [dataStep, metaStep, htr, hres, hchk, checkAssets]
        | error e =>
            simp [dataStep, metaStep, htr, hres, hchk, checkAssets]

/-- Witness for C4: two metadata pairs with equal core projections but
different non-core fields are interchangeable for the core check (which
succeeds on them), and the run-level conjunct at a truthy expected
metadata. -/
theorem C4_core_metadata_witness :
    (checkCoreMetadata
        ⟨⟨[("f", ⟨"fixed", "int64", "internal-vocab-path"⟩)]⟩, "x", [], false⟩
        ⟨⟨[("f", ⟨"fixed", "int64", ""⟩)]⟩, "", [], true⟩ = .ok () ↔
     checkCoreMetadata
        ⟨⟨[("f", ⟨"fixed", "int64", ""⟩)]⟩, "", [], true⟩
        ⟨⟨[("f", ⟨"fixed", "int64", "other"⟩)]⟩, "y", ["fut"], true⟩ = .ok ()) ∧
    checkCoreMetadata
        ⟨⟨[("f", ⟨"fixed", "int64", "internal-vocab-path"⟩)]⟩, "x", [], false⟩
        ⟨⟨[("f", ⟨"fixed", "int64", ""⟩)]⟩, "", [], true⟩ = .ok () ∧
    (assertAnalyzeAndTransformResults
        ⟨fun d _ => ((d, ⟨[], ⟨⟨[]⟩, "", [], true⟩⟩), 0),
         fun _ _ => 0, fun d _ _ => (d, ⟨[], ⟨⟨[]⟩, "", [], true⟩⟩),
         fun _ => [], fun _ => []⟩
        [] ⟨⟨[]⟩, "", [], true⟩ none
        (some ⟨⟨[]⟩, "", [], true⟩) false none none).1 =
      (match resolveDeferredMetadata (fun _ => [])
          (computeTransformed
            ⟨fun d _ => ((d, ⟨[], ⟨⟨[]⟩, "", [], true⟩⟩), 0),
             fun _ _ => 0, fun d _ _ => (d, ⟨[], ⟨⟨[]⟩, "", [], true⟩⟩),
             fun _ => [], fun _ => []⟩
            [] ⟨⟨[]⟩, "", [], true⟩ none).1.2 with
       | .error e => .error e
       | .ok m => if false then
            checkCoreMetadata m ⟨⟨[]⟩, "", [], true⟩
          else checkFullMetadata m ⟨⟨[]⟩, "", [], true⟩) := by
  refine ⟨(C4_core_metadata
      ⟨⟨[("f", ⟨"fixed", "int64", "internal-vocab-path"⟩)]⟩, "x", [], false⟩
      ⟨⟨[("f", ⟨"fixed", "int64", ""⟩)]⟩, "", [], true⟩).2.1
      ⟨⟨[("f", ⟨"fixed", "int64", ""⟩)]⟩, "", [], true⟩
      ⟨⟨[("f", ⟨"fixed", "int64", "other"⟩)]⟩, "y", ["fut"], true⟩
      rfl rfl, rfl, ?_⟩
  exact (C4_core_metadata ⟨⟨[]⟩, "", [], true⟩ ⟨⟨[]⟩, "", [], true⟩).2.2.2
    ⟨fun d _ => ((d, ⟨[], ⟨⟨[]⟩, "", [], true⟩⟩), 0),
     fun _ _ => 0, fun d _ _ => (d, ⟨[], ⟨⟨[]⟩, "", [], true⟩⟩),
     fun _ => [], fun _ => []⟩
    [] ⟨⟨[]⟩, "", [], true⟩ ⟨⟨[]⟩, "", [], true⟩ false rfl

end TftUnit

